import Mathlib

/-!
# Verification of `generate_icons.py` (FiletypeIconsGenerator)

Shallow embedding of the icon-generator script.  Modelling choices:

* Python strings become Lean `String`; `len` is `String.length`,
  `str.lower()` is `String.toLower`, `str.strip()` is `String.trim`.
* `str.replace(pat, rep)` (replace every non-overlapping occurrence,
  scanning left to right) is `pyReplace`, implemented on `List Char`
  with an explicit fuel argument so that it is structurally recursive
  and kernel-reducible; the fuel `s.length + 1` always suffices because
  every step consumes at least one character.
* `template_svg.format(color=..., extension=..., font_size=...)` is
  `pyFormat`: a single left-to-right scan substituting the three
  placeholder fields of the templates of this repository.
* The filesystem is an association list `FS` from file paths to file
  contents; `os.path.exists` is `Option.isSome` of a lookup and writing
  a file prepends to the list (the lookup sees the newest entry).
* Each call to `generate_icon` yields one `IconEvent`: the skip notice
  printed when the file exists and `force` is false, or the written
  file's name and content.
* The JSON catalog is an ordered association list from extension names
  to values: a bare color string, a config object (optional `color`,
  `font_size`, `aliases` keys), or any other JSON value (`other`),
  which the generation loop ignores.
* `os.listdir` of the templates directory becomes an
  `Option (List String)` parameter (`none` = directory absent), and
  loading a template file becomes a function from paths to contents.
* Interactive input in `check_aliases` becomes the `response` string
  parameter; printing and `json.dump` become returned values (the
  rewritten catalog is returned as `Option Catalog`, `none` meaning the
  file is left untouched).
-/

namespace FiletypeIcons

/-- Core of Python `str.replace`: replace every occurrence of `pat` by
`rep`, scanning left to right, non-overlapping.  The fuel bounds the
recursion; callers pass `s.length + 1`, which always suffices since each
step consumes at least one character of `s`.  (The scripts only ever
replace non-empty patterns; the `pat ≠ []` guard keeps the fuel
argument honest.) -/
def repAuxF : Nat → List Char → List Char → List Char → List Char
  | 0, _, _, s => s
  | Nat.succ n, pat, rep, s =>
    match s with
    | [] => []
    | c :: rest =>
      if pat ≠ [] ∧ pat.isPrefixOf (c :: rest) then
        rep ++ repAuxF n pat rep ((c :: rest).drop pat.length)
      else
        c :: repAuxF n pat rep rest

/-- Python `s.replace(pat, rep)`. -/
def pyReplace (s pat rep : String) : String :=
  ⟨repAuxF (s.data.length + 1) pat.data rep.data s.data⟩

/-- Core of `template_svg.format(color=..., extension=..., font_size=...)`
for the three placeholder fields used by the templates: a single
left-to-right scan substituting each placeholder occurrence by its
value. -/
def formatAuxF : Nat → List Char → List Char → List Char → List Char → List Char
  | 0, _, _, _, s => s
  | Nat.succ n, colorv, extv, fsv, s =>
    match s with
    | [] => []
    | c :: rest =>
      if "{color}".data.isPrefixOf (c :: rest) then
        colorv ++ formatAuxF n colorv extv fsv ((c :: rest).drop 7)
      else if "{extension}".data.isPrefixOf (c :: rest) then
        extv ++ formatAuxF n colorv extv fsv ((c :: rest).drop 11)
      else if "{font_size}".data.isPrefixOf (c :: rest) then
        fsv ++ formatAuxF n colorv extv fsv ((c :: rest).drop 11)
      else
        c :: formatAuxF n colorv extv fsv rest

/-- `template_svg.format(color=color, extension=extension, font_size=font_size)`
(source line 103). -/
def pyFormat (template_svg color extension : String) (font_size : Int) : String :=
  ⟨formatAuxF (template_svg.data.length + 1) color.data extension.data
    (toString font_size).data template_svg.data⟩

/-- Python `str.lower()`, character by character (the catalog names of
this repository are ASCII). -/
def py_lower (s : String) : String :=
  ⟨s.data.map Char.toLower⟩

/-- Python `str.startswith(pat)`. -/
def str_starts (s pat : String) : Bool :=
  pat.data.isPrefixOf s.data

/-- Python `str.endswith(pat)`. -/
def str_ends (s pat : String) : Bool :=
  pat.data.isSuffixOf s.data

/-- `os.path.join` for the shapes used by the script. -/
def pjoin (a b : String) : String :=
  if str_starts b "/" then b
  else if a = "" then b
  else if str_ends a "/" then a ++ b
  else a ++ "/" ++ b

/-- `get_font_size` (source lines 47-75): the custom size wins when
given, otherwise a step table keyed by the extension length. -/
def get_font_size (extension_length : Nat) (custom_size : Option Int := none) : Int :=
  match custom_size with
  | some c => c
  | none =>
    if extension_length ≤ 3 then 10
    else if extension_length = 4 then 9
    else if extension_length = 5 then 8
    else if extension_length = 6 then 7
    else if extension_length = 7 then 6
    else if extension_length = 8 then 5
    else 4

/-- Lines 99-100 of `generate_icon`: when no font size is passed,
derive it from the extension's own length. -/
def resolve_font_size (extension : String) (font_size : Option Int) : Int :=
  match font_size with
  | some s => s
  | none => get_font_size extension.length

/-- Line 90: the output filename `f"{extension.lower()}.svg"`. -/
def icon_filename (extension : String) : String :=
  py_lower extension ++ ".svg"

/-- The filesystem: newest entry first; `List.lookup` finds it. -/
abbrev FS := List (String × String)

/-- What one `generate_icon` call does observably: either the skip
notice (file exists, no force) or the file written with its content. -/
inductive IconEvent
  | skipped (filename : String)
  | written (filename : String) (content : String)
deriving DecidableEq

/-- The filename an event is about. -/
def IconEvent.filename : IconEvent → String
  | .skipped f => f
  | .written f _ => f

/-- Whether the event is a skip notice. -/
def IconEvent.isSkipped : IconEvent → Bool
  | .skipped _ => true
  | .written _ _ => false

/-- `generate_icon` (source lines 78-109): skip when the file exists
and `force` is false, otherwise resolve the font size, substitute into
the template and write the file. -/
def generate_icon (extension color output_dir template_svg : String)
    (font_size : Option Int) (force : Bool) (fs : FS) : FS × IconEvent :=
  let filename := icon_filename extension
  let filepath := pjoin output_dir filename
  if (fs.lookup filepath).isSome && !force then
    (fs, .skipped filename)
  else
    let size := resolve_font_size extension font_size
    let svg_content := pyFormat template_svg color extension size
    ((filepath, svg_content) :: fs, .written filename svg_content)

/-- A catalog config object: the optional `color`, `font_size` and
`aliases` keys read by lines 140-145. -/
structure ObjConfig where
  color : Option String
  font_size : Option Int
  aliases : Option (List String)
deriving DecidableEq

/-- A catalog value: a bare color string, a config object, or any
other JSON value (which the generation loop ignores: neither
`isinstance(config, str)` nor `isinstance(config, dict)` holds). -/
inductive CatalogValue
  | str (color : String)
  | obj (cfg : ObjConfig)
  | other
deriving DecidableEq

/-- The parsed JSON catalog, in insertion order. -/
abbrev Catalog := List (String × CatalogValue)

/-- The alias loop of `generate_icons_from_json` (lines 146-147). -/
def generate_alias_icons (aliases : List String)
    (color output_dir template_svg : String) (font_size : Option Int)
    (force : Bool) (fs : FS) : FS × List IconEvent :=
  match aliases with
  | [] => (fs, [])
  | a :: rest =>
    let r := generate_icon a color output_dir template_svg font_size force fs
    let rr := generate_alias_icons rest color output_dir template_svg font_size force r.1
    (rr.1, r.2 :: rr.2)

/-- The body of the catalog loop of `generate_icons_from_json`
(lines 134-147) for one entry. -/
def generate_entry_icons (entry : String × CatalogValue)
    (output_dir template_svg : String) (force : Bool) (fs : FS) :
    FS × List IconEvent :=
  match entry.2 with
  | .str color =>
    let r := generate_icon entry.1 color output_dir template_svg none force fs
    (r.1, [r.2])
  | .obj cfg =>
    let color := cfg.color.getD "#000000"
    let font_size := cfg.font_size
    let r := generate_icon entry.1 color output_dir template_svg font_size force fs
    let ra := generate_alias_icons (cfg.aliases.getD []) color output_dir
      template_svg font_size force r.1
    (ra.1, r.2 :: ra.2)
  | .other => (fs, [])

/-- `generate_icons_from_json` (lines 112-147), with the template text
and parsed catalog passed in (the directory-creation side effect of
line 131 has no bearing on the modelled state). -/
def generate_icons_from_json (data : Catalog)
    (output_dir template_svg : String) (force : Bool) (fs : FS) :
    FS × List IconEvent :=
  match data with
  | [] => (fs, [])
  | e :: rest =>
    let r := generate_entry_icons e output_dir template_svg force fs
    let rr := generate_icons_from_json rest output_dir template_svg force r.1
    (rr.1, r.2 ++ rr.2)

/-- A warning printed by `check_aliases` (lines 174-178): an alias that
is already a main extension, or an alias already claimed by an earlier
owner. -/
inductive AliasWarning
  | aliasIsMain (a extension : String)
  | duplicateAlias (a extension owner : String)
deriving DecidableEq

/-- The mutable state of the `check_aliases` scan (lines 165-166):
the set of aliases seen so far (kept as the list of first occurrences),
the alias → owning-extension map, and the warnings printed so far. -/
structure ScanState where
  all_aliases : List String
  aliases_map : List (String × String)
  warnings : List AliasWarning
deriving DecidableEq

/-- The body of the alias loop of `check_aliases` (lines 172-181) for
one alias `a` of entry `extension`: the two independent duplicate
checks, and registration when the alias was not seen before. -/
def scan_alias (main_extensions : List String) (extension : String)
    (st : ScanState) (a : String) : ScanState :=
  let w1 := if a ∈ main_extensions then
      st.warnings ++ [.aliasIsMain a extension]
    else st.warnings
  if a ∈ st.all_aliases then
    { st with warnings :=
        w1 ++ [.duplicateAlias a extension ((st.aliases_map.lookup a).getD "")] }
  else
    { all_aliases := st.all_aliases ++ [a]
      aliases_map := st.aliases_map ++ [(a, extension)]
      warnings := w1 }

/-- The outer scan loop of `check_aliases` (lines 168-181) for one
catalog entry: only object-valued entries contribute aliases. -/
def scan_entry (main_extensions : List String) (st : ScanState)
    (entry : String × CatalogValue) : ScanState :=
  match entry.2 with
  | .obj cfg => (cfg.aliases.getD []).foldl (scan_alias main_extensions entry.1) st
  | _ => st

/-- The full `check_aliases` scan over the catalog, starting from the
empty state, with `main_extensions = set(data.keys())`. -/
def scan_catalog (data : Catalog) : ScanState :=
  data.foldl (scan_entry (data.map Prod.fst)) ⟨[], [], []⟩

/-- Line 184: `main_extensions.intersection(all_aliases)`, as the list
of catalog keys that also occur as aliases (in key order; the Python
set's iteration order does not affect the rewritten catalog). -/
def extensions_in_aliases (data : Catalog) : List String :=
  (data.map Prod.fst).filter (fun e => decide (e ∈ (scan_catalog data).all_aliases))

/-- Lines 198-200: `for extension in extensions_in_aliases: del data[extension]`. -/
def del_keys (data : Catalog) (keys : List String) : Catalog :=
  match keys with
  | [] => data
  | k :: rest => del_keys (data.filter (fun e => !(e.1 == k))) rest

/-- The mutating tail of `check_aliases` (lines 193-210): the catalog
written back to disk (`some` of the edited catalog, pretty-printed by
`json.dump(..., indent=4)`) or `none` when the file is left untouched.
`response` is the interactive answer, processed by
`.strip().lower() == "yes"` (line 195-196). -/
def check_aliases (data : Catalog) (response : String) : Option Catalog :=
  let inter := extensions_in_aliases data
  if inter.isEmpty then none
  else if py_lower response.trim = "yes" then some (del_keys data inter)
  else none

/-- The alias list one catalog entry contributes to the scan. -/
def entry_aliases (e : String × CatalogValue) : List String :=
  match e.2 with
  | .obj cfg => cfg.aliases.getD []
  | _ => []

/-- All alias occurrences of the catalog, in scan order. -/
def catalog_aliases (data : Catalog) : List String :=
  data.flatMap entry_aliases

/-- One planned run of the batch driver (lines 235-241): the derived
template name, the output directory and the template path passed to
`generate_icons_from_json`. -/
structure TemplateRun where
  template_name : String
  output_dir : String
  template_path : String
deriving DecidableEq

/-- Line 236: `template_file.replace("template_", "").replace(".svg", "")`. -/
def template_name_of (f : String) : String :=
  pyReplace (pyReplace f "template_" "") ".svg" ""

/-- The loop of `generate_all_templates` (lines 235-241): one catalog
run per template file, threading the filesystem; `load` maps a
template path to its text. -/
def run_templates (data : Catalog) (load : String → String)
    (templates_dir : String) (force : Bool) :
    List String → FS → FS × List TemplateRun
  | [], fs => (fs, [])
  | f :: rest, fs =>
    let name := template_name_of f
    let run : TemplateRun := ⟨name, pjoin "icons" name, pjoin templates_dir f⟩
    let fs1 := (generate_icons_from_json data run.output_dir
      (load run.template_path) force fs).1
    let r := run_templates data load templates_dir force rest fs1
    (r.1, run :: r.2)

/-- `generate_all_templates` (lines 213-241): `listing` is
`os.listdir(templates_dir)` (`none` when the directory is absent).
Returns the final filesystem, the notices printed, and the template
runs performed. -/
def generate_all_templates (data : Catalog) (load : String → String)
    (templates_dir : String) (listing : Option (List String))
    (force : Bool) (fs : FS) : FS × List String × List TemplateRun :=
  match listing with
  | none => (fs, ["Directory " ++ templates_dir ++ " does not exist."], [])
  | some files =>
    let template_files := files.filter
      (fun f => str_starts f "template_" && str_ends f ".svg")
    if template_files.isEmpty then
      (fs, ["No templates found in directory " ++ templates_dir ++ "."], [])
    else
      let r := run_templates data load templates_dir force template_files fs
      (r.1,
        template_files.map
          (fun f => "Generating icons with template " ++ template_name_of f ++ "..."),
        r.2)

/-- Whether `pat` occurs as a contiguous sublist of `s`. -/
def containsSub (pat : List Char) : List Char → Bool
  | [] => pat.isPrefixOf []
  | c :: rest => pat.isPrefixOf (c :: rest) || containsSub pat rest

/-- Whether `pat` occurs in `s ++ pat` starting strictly before the
appended copy (inside `s` or spanning the boundary). -/
def earlyOccur (pat : List Char) : List Char → Bool
  | [] => false
  | c :: rest => pat.isPrefixOf ((c :: rest) ++ pat) || earlyOccur pat rest

/-- Modelled from the spec: derive the template name "by stripping the
`template_` prefix and the `.svg` suffix from the filename" (§4.5),
written from the spec's words to be compared with `template_name_of`. -/
def spec_template_name (f : String) : String :=
  ⟨(f.data.drop "template_".data.length).take
    (f.data.length - "template_".data.length - ".svg".data.length)⟩

/-- Modelled from the spec: the icon filenames one catalog entry is
expected to produce, "the primary icon, then one icon per alias …
in list order" (§4.3), written from the spec's words to be compared
with the event trace of the generator. -/
def spec_entry_filenames (e : String × CatalogValue) : List String :=
  match e.2 with
  | .str _ => [icon_filename e.1]
  | .obj cfg => icon_filename e.1 :: (cfg.aliases.getD []).map icon_filename
  | .other => []

/-- The file paths one catalog entry targets under `output_dir`. -/
def entry_paths (output_dir : String) (e : String × CatalogValue) : List String :=
  (spec_entry_filenames e).map (pjoin output_dir)

/-- Modelled from the spec: the fixed step table of §4.1
(lengths 1–3→10, 4→9, 5→8, 6→7, 7→6, 8→5, ≥9→4), written from the
spec's words to be compared with `get_font_size`. -/
def spec_font_size_table (L : Nat) : Int :=
  if 1 ≤ L ∧ L ≤ 3 then 10
  else if L = 4 then 9
  else if L = 5 then 8
  else if L = 6 then 7
  else if L = 7 then 6
  else if L = 8 then 5
  else 4

/-- The catalog of the spec's §8 TYPESCRIPT example. -/
def demo_ts_catalog : Catalog :=
  [("TYPESCRIPT", .obj ⟨some "#3178C6", none, some ["TS"]⟩)]

theorem lookup_cons_pair (p v q : String) (fs : FS) :
    ((p, v) :: fs).lookup q = if q == p then some v else fs.lookup q := by
  cases h : q == p <;> simp [List.lookup, h]

theorem generate_icon_skip (extension color output_dir template_svg : String)
    (font_size : Option Int) (fs : FS)
    (h : (fs.lookup (pjoin output_dir (icon_filename extension))).isSome = true) :
    generate_icon extension color output_dir template_svg font_size false fs
      = (fs, .skipped (icon_filename extension)) := by
  simp [generate_icon, h]

theorem generate_icon_fs_mono (extension color output_dir template_svg : String)
    (font_size : Option Int) (force : Bool) (fs : FS) (q : String)
    (h : (fs.lookup q).isSome = true) :
    (((generate_icon extension color output_dir template_svg font_size force fs).1).lookup
        q).isSome = true := by
  simp only [generate_icon]
  split
  · exact h
  · rw [lookup_cons_pair]
    split <;> simp [h]

theorem generate_icon_self (extension color output_dir template_svg : String)
    (font_size : Option Int) (fs : FS) :
    (((generate_icon extension color output_dir template_svg font_size false fs).1).lookup
        (pjoin output_dir (icon_filename extension))).isSome = true := by
  simp only [generate_icon]
  split
  · next hc =>
    simpa using hc
  · rw [lookup_cons_pair]
    simp

theorem generate_icon_event_cases (extension color output_dir template_svg : String)
    (font_size : Option Int) (force : Bool) (fs : FS) :
    (generate_icon extension color output_dir template_svg font_size force fs).2
        = .skipped (icon_filename extension) ∨
      (generate_icon extension color output_dir template_svg font_size force fs).2
        = .written (icon_filename extension)
            (pyFormat template_svg color extension (resolve_font_size extension font_size)) := by
  simp only [generate_icon]
  split
  · left; rfl
  · right; rfl

theorem generate_icon_event_filename (extension color output_dir template_svg : String)
    (font_size : Option Int) (force : Bool) (fs : FS) :
    ((generate_icon extension color output_dir template_svg font_size force fs).2).filename
      = icon_filename extension := by
  rcases generate_icon_event_cases extension color output_dir template_svg font_size force fs
    with h | h <;> rw [h] <;> rfl

theorem generate_alias_icons_fs_mono (color output_dir template_svg : String)
    (font_size : Option Int) (force : Bool) (aliases : List String) :
    ∀ (fs : FS) (q : String), (fs.lookup q).isSome = true →
      (((generate_alias_icons aliases color output_dir template_svg font_size force
          fs).1).lookup q).isSome = true := by
  induction aliases with
  | nil => intro fs q h; exact h
  | cons a rest ih =>
    intro fs q h
    simp only [generate_alias_icons]
    exact ih _ _ (generate_icon_fs_mono a color output_dir template_svg font_size force fs q h)

theorem generate_alias_icons_creates (color output_dir template_svg : String)
    (font_size : Option Int) (aliases : List String) :
    ∀ (fs : FS) (a : String), a ∈ aliases →
      (((generate_alias_icons aliases color output_dir template_svg font_size false
          fs).1).lookup (pjoin output_dir (icon_filename a))).isSome = true := by
  induction aliases with
  | nil => intro fs a h; cases h
  | cons b rest ih =>
    intro fs a h
    simp only [generate_alias_icons]
    rcases List.mem_cons.mp h with rfl | hrest
    · exact generate_alias_icons_fs_mono color output_dir template_svg font_size false rest _ _
        (generate_icon_self a color output_dir template_svg font_size fs)
    · exact ih _ _ hrest

theorem generate_alias_icons_skips (color output_dir template_svg : String)
    (font_size : Option Int) (aliases : List String) :
    ∀ fs : FS,
      (∀ a ∈ aliases, (fs.lookup (pjoin output_dir (icon_filename a))).isSome = true) →
      generate_alias_icons aliases color output_dir template_svg font_size false fs
        = (fs, aliases.map (fun a => .skipped (icon_filename a))) := by
  induction aliases with
  | nil => intro fs _; rfl
  | cons a rest ih =>
    intro fs h
    simp only [generate_alias_icons]
    rw [generate_icon_skip a color output_dir template_svg font_size fs
      (h a (List.mem_cons_self a rest))]
    rw [ih fs (fun b hb => h b (List.mem_cons_of_mem a hb))]
    rfl

theorem generate_alias_icons_filenames (color output_dir template_svg : String)
    (font_size : Option Int) (force : Bool) (aliases : List String) :
    ∀ fs : FS,
      ((generate_alias_icons aliases color output_dir template_svg font_size force
          fs).2).map IconEvent.filename = aliases.map icon_filename := by
  induction aliases with
  | nil => intro fs; rfl
  | cons a rest ih =>
    intro fs
    simp only [generate_alias_icons, List.map_cons, List.map]
    rw [generate_icon_event_filename, ih]

theorem generate_alias_icons_events (color output_dir template_svg : String)
    (font_size : Option Int) (force : Bool) (aliases : List String) :
    ∀ fs : FS,
      List.Forall₂ (fun a ev =>
          ev = IconEvent.skipped (icon_filename a) ∨
            ev = IconEvent.written (icon_filename a)
              (pyFormat template_svg color a (resolve_font_size a font_size)))
        aliases
        ((generate_alias_icons aliases color output_dir template_svg font_size force
            fs).2) := by
  induction aliases with
  | nil => intro fs; exact List.Forall₂.nil
  | cons a rest ih =>
    intro fs
    simp only [generate_alias_icons]
    exact List.Forall₂.cons
      (generate_icon_event_cases a color output_dir template_svg font_size force fs) (ih _)

theorem generate_entry_icons_fs_mono (entry : String × CatalogValue)
    (output_dir template_svg : String) (force : Bool) (fs : FS) (q : String)
    (h : (fs.lookup q).isSome = true) :
    (((generate_entry_icons entry output_dir template_svg force fs).1).lookup q).isSome
      = true := by
  obtain ⟨name, v⟩ := entry
  cases v with
  | str color =>
    simp only [generate_entry_icons]
    exact generate_icon_fs_mono name color output_dir template_svg none force fs q h
  | obj cfg =>
    simp only [generate_entry_icons]
    exact generate_alias_icons_fs_mono _ output_dir template_svg cfg.font_size force _ _ q
      (generate_icon_fs_mono name _ output_dir template_svg cfg.font_size force fs q h)
  | other => exact h

theorem generate_entry_icons_creates (entry : String × CatalogValue)
    (output_dir template_svg : String) (fs : FS) (p : String)
    (hp : p ∈ entry_paths output_dir entry) :
    (((generate_entry_icons entry output_dir template_svg false fs).1).lookup p).isSome
      = true := by
  obtain ⟨name, v⟩ := entry
  cases v with
  | str color =>
    simp only [entry_paths, spec_entry_filenames, List.map_cons, List.map_nil,
      List.mem_singleton] at hp
    subst hp
    simp only [generate_entry_icons]
    exact generate_icon_self name color output_dir template_svg none fs
  | obj cfg =>
    simp only [entry_paths, spec_entry_filenames, List.map_cons, List.map_map,
      List.mem_cons, List.mem_map, Function.comp] at hp
    simp only [generate_entry_icons]
    rcases hp with rfl | ⟨a, ha, rfl⟩
    · exact generate_alias_icons_fs_mono _ output_dir template_svg cfg.font_size false _ _ _
        (generate_icon_self name _ output_dir template_svg cfg.font_size fs)
    · exact generate_alias_icons_creates _ output_dir template_svg cfg.font_size _ _ a ha
  | other => cases hp

theorem generate_entry_icons_skips (entry : String × CatalogValue)
    (output_dir template_svg : String) (fs : FS)
    (h : ∀ p ∈ entry_paths output_dir entry, (fs.lookup p).isSome = true) :
    generate_entry_icons entry output_dir template_svg false fs
      = (fs, (spec_entry_filenames entry).map IconEvent.skipped) := by
  obtain ⟨name, v⟩ := entry
  cases v with
  | str color =>
    simp only [generate_entry_icons]
    rw [generate_icon_skip name color output_dir template_svg none fs
      (h _ (by simp [entry_paths, spec_entry_filenames]))]
    rfl
  | obj cfg =>
    simp only [generate_entry_icons]
    rw [generate_icon_skip name _ output_dir template_svg cfg.font_size fs
      (h _ (by simp [entry_paths, spec_entry_filenames]))]
    rw [generate_alias_icons_skips _ output_dir template_svg cfg.font_size _ fs
      (fun a ha => h _ (by
        simp only [entry_paths, spec_entry_filenames, List.map_cons, List.map_map,
          List.mem_cons, List.mem_map, Function.comp]
        exact Or.inr ⟨a, ha, rfl⟩))]
    simp [spec_entry_filenames]
  | other => rfl

theorem generate_entry_icons_filenames (entry : String × CatalogValue)
    (output_dir template_svg : String) (force : Bool) (fs : FS) :
    ((generate_entry_icons entry output_dir template_svg force fs).2).map
        IconEvent.filename = spec_entry_filenames entry := by
  obtain ⟨name, v⟩ := entry
  cases v with
  | str color =>
    simp only [generate_entry_icons, spec_entry_filenames, List.map_cons, List.map_nil]
    rw [generate_icon_event_filename]
  | obj cfg =>
    simp only [generate_entry_icons, spec_entry_filenames, List.map_cons]
    rw [generate_icon_event_filename, generate_alias_icons_filenames]
  | other => rfl

theorem generate_icons_from_json_fs_mono (output_dir template_svg : String)
    (force : Bool) (data : Catalog) :
    ∀ (fs : FS) (q : String), (fs.lookup q).isSome = true →
      (((generate_icons_from_json data output_dir template_svg force fs).1).lookup
          q).isSome = true := by
  induction data with
  | nil => intro fs q h; exact h
  | cons e rest ih =>
    intro fs q h
    simp only [generate_icons_from_json]
    exact ih _ _ (generate_entry_icons_fs_mono e output_dir template_svg force fs q h)

theorem generate_icons_from_json_creates (output_dir template_svg : String)
    (data : Catalog) :
    ∀ (fs : FS) (p : String), p ∈ data.flatMap (entry_paths output_dir) →
      (((generate_icons_from_json data output_dir template_svg false fs).1).lookup
          p).isSome = true := by
  induction data with
  | nil => intro fs p h; cases h
  | cons e rest ih =>
    intro fs p h
    simp only [generate_icons_from_json]
    rw [List.flatMap_cons] at h
    rcases List.mem_append.mp h with he | hrest
    · exact generate_icons_from_json_fs_mono output_dir template_svg false rest _ _
        (generate_entry_icons_creates e output_dir template_svg fs p he)
    · exact ih _ _ hrest

theorem generate_icons_from_json_skips (output_dir template_svg : String)
    (data : Catalog) :
    ∀ fs : FS,
      (∀ p ∈ data.flatMap (entry_paths output_dir), (fs.lookup p).isSome = true) →
      generate_icons_from_json data output_dir template_svg false fs
        = (fs, (data.flatMap spec_entry_filenames).map IconEvent.skipped) := by
  induction data with
  | nil => intro fs _; rfl
  | cons e rest ih =>
    intro fs h
    simp only [generate_icons_from_json]
    rw [generate_entry_icons_skips e output_dir template_svg fs
      (fun p hp => h p (by simp only [List.flatMap_cons, List.mem_append]; exact Or.inl hp))]
    rw [ih fs
      (fun p hp => h p (by simp only [List.flatMap_cons, List.mem_append]; exact Or.inr hp))]
    simp [List.flatMap_cons]

/-- C3: the generator emits icons in catalog insertion order, each
object entry's aliases immediately after its primary icon, in list
order (the emitted filename sequence is the catalog-order expansion). -/
theorem generation_order (data : Catalog) (output_dir template_svg : String)
    (force : Bool) (fs : FS) :
    ((generate_icons_from_json data output_dir template_svg force fs).2).map
        IconEvent.filename = data.flatMap spec_entry_filenames := by
  induction data generalizing fs with
  | nil => rfl
  | cons e rest ih =>
    simp only [generate_icons_from_json, List.flatMap_cons, List.map_append]
    rw [generate_entry_icons_filenames, ih]

/-- C4: with the overwrite flag false and the target file present, the
renderer leaves the filesystem untouched and reports a skip notice
(and, being a total function, raises no error). -/
theorem renderer_skips_existing (extension color output_dir template_svg : String)
    (font_size : Option Int) (fs : FS)
    (h : (fs.lookup (pjoin output_dir (icon_filename extension))).isSome = true) :
    generate_icon extension color output_dir template_svg font_size false fs
      = (fs, .skipped (icon_filename extension)) :=
  generate_icon_skip extension color output_dir template_svg font_size fs h

/-- Witness for C4: a concrete filesystem already holding `out/pdf.svg`. -/
theorem renderer_skips_existing_witness :
    generate_icon "PDF" "#FF0000" "out" "{color}" none false [("out/pdf.svg", "old")]
      = ([("out/pdf.svg", "old")], .skipped (icon_filename "PDF")) :=
  renderer_skips_existing "PDF" "#FF0000" "out" "{color}" none
    [("out/pdf.svg", "old")] (by decide)

/-- C5: running generation twice without force leaves the filesystem of
the first run unchanged and the second run skips every icon (zero
overwrites). -/
theorem generation_idempotent (data : Catalog) (output_dir template_svg : String)
    (fs0 : FS) :
    generate_icons_from_json data output_dir template_svg false
        (generate_icons_from_json data output_dir template_svg false fs0).1
      = ((generate_icons_from_json data output_dir template_svg false fs0).1,
          (data.flatMap spec_entry_filenames).map IconEvent.skipped) :=
  generate_icons_from_json_skips output_dir template_svg data _
    (fun p hp => generate_icons_from_json_creates output_dir template_svg data fs0 p hp)

/-- C2 counterexample: in the spec's own §8 example the alias `TS` is
rendered with font size 10 while its primary `TYPESCRIPT` is rendered
with font size 4, so an alias icon does not always share the primary
icon's font size. -/
theorem alias_font_size_counterexample :
    (generate_icons_from_json demo_ts_catalog "icons" "{font_size}" false []).2
      = [IconEvent.written "typescript.svg" "4", IconEvent.written "ts.svg" "10"] ∧
    resolve_font_size "TYPESCRIPT" none = 4 ∧ resolve_font_size "TS" none = 10 ∧
    ("4" : String) ≠ "10" := by
  refine ⟨by decide, by decide, by decide, by decide⟩

/-- C2 amended: every alias icon is generated with the entry's color
and with the entry's font-size setting; when the entry specifies an
explicit `font_size` the alias therefore shares the primary icon's font
size, and otherwise each name's size is resolved from its own length. -/
theorem alias_icons_share_settings (name : String) (cfg : ObjConfig)
    (output_dir template_svg : String) (force : Bool) (fs : FS) :
    List.Forall₂ (fun a ev =>
        ev = IconEvent.skipped (icon_filename a) ∨
          ev = IconEvent.written (icon_filename a)
            (pyFormat template_svg (cfg.color.getD "#000000") a
              (resolve_font_size a cfg.font_size)))
      (cfg.aliases.getD [])
      ((generate_entry_icons (name, .obj cfg) output_dir template_svg force fs).2.tail)
    ∧ ∀ s : Int, cfg.font_size = some s → ∀ a : String,
        resolve_font_size a cfg.font_size = resolve_font_size name cfg.font_size := by
  constructor
  · simp only [generate_entry_icons, List.tail_cons]
    exact generate_alias_icons_events _ output_dir template_svg cfg.font_size force _ _
  · intro s hs a
    simp [resolve_font_size, hs]

/-- Witness for C2's amended claim at a concrete entry with an explicit
font-size override. -/
theorem alias_icons_share_settings_witness :
    List.Forall₂ (fun a ev =>
        ev = IconEvent.skipped (icon_filename a) ∨
          ev = IconEvent.written (icon_filename a)
            (pyFormat "{color}" ((ObjConfig.mk (some "#fff") (some 12) (some ["BB"])).color.getD "#000000") a
              (resolve_font_size a (ObjConfig.mk (some "#fff") (some 12) (some ["BB"])).font_size)))
      ((ObjConfig.mk (some "#fff") (some 12) (some ["BB"])).aliases.getD [])
      ((generate_entry_icons ("AAA", .obj (ObjConfig.mk (some "#fff") (some 12) (some ["BB"])))
          "o" "{color}" false []).2.tail)
    ∧ resolve_font_size "BB" ((ObjConfig.mk (some "#fff") (some 12) (some ["BB"])).font_size)
        = resolve_font_size "AAA" ((ObjConfig.mk (some "#fff") (some 12) (some ["BB"])).font_size) :=
  ⟨(alias_icons_share_settings "AAA" (ObjConfig.mk (some "#fff") (some 12) (some ["BB"]))
      "o" "{color}" false []).1,
    (alias_icons_share_settings "AAA" (ObjConfig.mk (some "#fff") (some 12) (some ["BB"]))
      "o" "{color}" false []).2 12 rfl "BB"⟩

/-- C1: with an override the resolver returns it unchanged for every
length; without one it returns the spec's step-table value for every
length in the table's domain (L ≥ 1). -/
theorem font_size_resolver_matches_table (L : Nat) (c : Int) (hL : 1 ≤ L) :
    (∀ M : Nat, get_font_size M (some c) = c) ∧
      get_font_size L none = spec_font_size_table L := by
  constructor
  · intro M; rfl
  · show (if L ≤ 3 then (10 : Int)
      else if L = 4 then 9 else if L = 5 then 8 else if L = 6 then 7
      else if L = 7 then 6 else if L = 8 then 5 else 4) = spec_font_size_table L
    unfold spec_font_size_table
    split_ifs <;> omega

/-- Witness for C1 at length 5 with override 12. -/
theorem font_size_resolver_matches_table_witness :
    get_font_size 7 (some 12) = 12 ∧
      get_font_size 5 none = spec_font_size_table 5 :=
  ⟨(font_size_resolver_matches_table 5 12 (by decide)).1 7,
    (font_size_resolver_matches_table 5 12 (by decide)).2⟩

/-- C10: the resolver is total on length 0 as well: with no override it
returns 10 there, the same value as for lengths 1, 2 and 3. -/
theorem font_size_resolver_total_at_zero :
    get_font_size 0 none = 10 ∧ get_font_size 1 none = 10 ∧
      get_font_size 2 none = 10 ∧ get_font_size 3 none = 10 := by
  decide

/-- C6: the behavior of one step of the Alias Checker's walk: a warning
whenever the alias equals a primary extension name, a warning naming
the registered earlier owner whenever the alias was already seen, and
registration of the alias with its owning extension exactly when it was
not seen before. -/
theorem alias_checker_scan_step (main_extensions : List String)
    (extension a : String) (st : ScanState) :
    (scan_alias main_extensions extension st a).warnings
        = st.warnings
          ++ (if a ∈ main_extensions then [AliasWarning.aliasIsMain a extension] else [])
          ++ (if a ∈ st.all_aliases
              then [AliasWarning.duplicateAlias a extension
                ((st.aliases_map.lookup a).getD "")]
              else [])
    ∧ (scan_alias main_extensions extension st a).all_aliases
        = (if a ∈ st.all_aliases then st.all_aliases else st.all_aliases ++ [a])
    ∧ (scan_alias main_extensions extension st a).aliases_map
        = (if a ∈ st.all_aliases then st.aliases_map
           else st.aliases_map ++ [(a, extension)]) := by
  unfold scan_alias
  by_cases h1 : a ∈ main_extensions <;> by_cases h2 : a ∈ st.all_aliases <;>
    simp [h1, h2]

theorem scan_alias_all_mem (main_extensions : List String) (extension a x : String)
    (st : ScanState) :
    x ∈ (scan_alias main_extensions extension st a).all_aliases ↔
      x ∈ st.all_aliases ∨ x = a := by
  unfold scan_alias
  by_cases h2 : a ∈ st.all_aliases
  · simp only [if_pos h2]
    constructor
    · exact Or.inl
    · intro h
      rcases h with h | rfl
      · exact h
      · exact h2
  · simp [h2]

theorem scan_aliases_fold_mem (main_extensions : List String) (extension x : String)
    (as : List String) :
    ∀ st : ScanState,
      x ∈ (as.foldl (scan_alias main_extensions extension) st).all_aliases ↔
        x ∈ st.all_aliases ∨ x ∈ as := by
  induction as with
  | nil => intro st; simp
  | cons a rest ih =>
    intro st
    rw [List.foldl_cons, ih, scan_alias_all_mem]
    simp [List.mem_cons, or_assoc]

theorem scan_entry_all_mem (main_extensions : List String) (x : String)
    (e : String × CatalogValue) (st : ScanState) :
    x ∈ (scan_entry main_extensions st e).all_aliases ↔
      x ∈ st.all_aliases ∨ x ∈ entry_aliases e := by
  obtain ⟨n, v⟩ := e
  cases v with
  | str color => simp [scan_entry, entry_aliases]
  | obj cfg =>
    simp only [scan_entry, entry_aliases]
    exact scan_aliases_fold_mem main_extensions n x (cfg.aliases.getD []) st
  | other => simp [scan_entry, entry_aliases]

theorem scan_catalog_fold_mem (main_extensions : List String) (x : String)
    (data : Catalog) :
    ∀ st : ScanState,
      x ∈ (data.foldl (scan_entry main_extensions) st).all_aliases ↔
        x ∈ st.all_aliases ∨ x ∈ data.flatMap entry_aliases := by
  induction data with
  | nil => intro st; simp
  | cons e rest ih =>
    intro st
    rw [List.foldl_cons, ih, scan_entry_all_mem]
    simp [List.flatMap_cons, List.mem_append, or_assoc]

theorem scan_catalog_all_mem (data : Catalog) (x : String) :
    x ∈ (scan_catalog data).all_aliases ↔ x ∈ catalog_aliases data := by
  unfold scan_catalog catalog_aliases
  rw [scan_catalog_fold_mem]
  simp

theorem del_keys_eq_filter (keys : List String) :
    ∀ data : Catalog, del_keys data keys
      = data.filter (fun e => decide (e.1 ∉ keys)) := by
  induction keys with
  | nil => intro data; simp [del_keys]
  | cons k rest ih =>
    intro data
    rw [del_keys, ih, List.filter_filter]
    refine List.filter_congr ?_
    intro e _
    by_cases h1 : e.1 = k <;> by_cases h2 : e.1 ∈ rest <;>
      simp [h1, h2, List.mem_cons]

/-- C7: the Alias Checker rewrites the catalog exactly when the
intersection of primary names and alias names is non-empty and the
(stripped, lowercased) response is `yes`; the rewritten catalog is the
original minus exactly the primary entries whose name occurs as an
alias, and in every other case the file is left untouched (`none`). -/
theorem alias_checker_rewrite (data : Catalog) (response : String) :
    check_aliases data response
      = if ((data.map Prod.fst).filter (fun e => decide (e ∈ catalog_aliases data))) ≠ []
            ∧ py_lower response.trim = "yes"
        then some (data.filter (fun e => decide (e.1 ∉ catalog_aliases data)))
        else none := by
  have hfilter : extensions_in_aliases data
      = (data.map Prod.fst).filter (fun e => decide (e ∈ catalog_aliases data)) := by
    unfold extensions_in_aliases
    refine List.filter_congr ?_
    intro x _
    simp [scan_catalog_all_mem]
  have hmem : ∀ x, x ∈ extensions_in_aliases data ↔
      x ∈ data.map Prod.fst ∧ x ∈ catalog_aliases data := by
    intro x
    rw [hfilter]
    simp [List.mem_filter]
  have hdel : del_keys data (extensions_in_aliases data)
      = data.filter (fun e => decide (e.1 ∉ catalog_aliases data)) := by
    rw [del_keys_eq_filter]
    refine List.filter_congr ?_
    intro e he
    have h1 : e.1 ∈ data.map Prod.fst := List.mem_map_of_mem Prod.fst he
    by_cases h2 : e.1 ∈ catalog_aliases data
    · have : e.1 ∈ extensions_in_aliases data := (hmem e.1).mpr ⟨h1, h2⟩
      simp [this, h2]
    · have : e.1 ∉ extensions_in_aliases data := fun hc => h2 ((hmem e.1).mp hc).2
      simp [this, h2]
  unfold check_aliases
  by_cases hempty : extensions_in_aliases data = []
  · have hf : (data.map Prod.fst).filter (fun e => decide (e ∈ catalog_aliases data)) = [] := by
      rw [← hfilter]; exact hempty
    rw [hempty, hf]
    simp
  · rw [if_neg (by simpa [List.isEmpty_iff] using hempty)]
    by_cases hyes : py_lower response.trim = "yes"
    · rw [if_pos hyes, if_pos ⟨by rwa [← hfilter], hyes⟩, hdel]
    · rw [if_neg hyes, if_neg (fun hc => hyes hc.2)]

/-- C8: with the templates directory absent, or with no file matching
the `template_*.svg` convention, the Batch Driver leaves the filesystem
untouched, performs no template run (so no output directory and no
icon), and prints exactly one notice. -/
theorem batch_driver_empty (data : Catalog) (load : String → String)
    (templates_dir : String) (force : Bool) (fs : FS) (listing : Option (List String))
    (h : listing = none ∨ ∃ files, listing = some files ∧
        files.filter (fun f => str_starts f "template_" && str_ends f ".svg") = []) :
    (generate_all_templates data load templates_dir listing force fs).1 = fs ∧
    (generate_all_templates data load templates_dir listing force fs).2.2 = [] ∧
    (generate_all_templates data load templates_dir listing force fs).2.1.length = 1 := by
  rcases h with rfl | ⟨files, rfl, hf⟩
  · exact ⟨rfl, rfl, rfl⟩
  · simp [generate_all_templates, hf]

/-- Witness for C8: the absent-directory case at concrete inputs. -/
theorem batch_driver_empty_witness :
    (generate_all_templates [] (fun _ => "") "templates" none false []).1 = [] ∧
    (generate_all_templates [] (fun _ => "") "templates" none false []).2.2 = [] ∧
    (generate_all_templates [] (fun _ => "") "templates" none false []).2.1.length = 1 :=
  batch_driver_empty [] (fun _ => "") "templates" false [] none (Or.inl rfl)

theorem run_templates_runs (data : Catalog) (load : String → String)
    (templates_dir : String) (force : Bool) (files : List String) :
    ∀ fs : FS, (run_templates data load templates_dir force files fs).2
      = files.map (fun f => TemplateRun.mk (template_name_of f)
          (pjoin "icons" (template_name_of f)) (pjoin templates_dir f)) := by
  induction files with
  | nil => intro fs; rfl
  | cons f rest ih =>
    intro fs
    simp only [run_templates, List.map_cons]
    rw [ih]

theorem generate_all_templates_runs (data : Catalog) (load : String → String)
    (templates_dir : String) (force : Bool) (fs : FS) (files : List String) :
    (generate_all_templates data load templates_dir (some files) force fs).2.2
      = (files.filter (fun f => str_starts f "template_" && str_ends f ".svg")).map
          (fun f => TemplateRun.mk (template_name_of f)
            (pjoin "icons" (template_name_of f)) (pjoin templates_dir f)) := by
  simp only [generate_all_templates]
  split
  · next hempty =>
    rw [List.isEmpty_iff.mp hempty]
    rfl
  · exact run_templates_runs data load templates_dir force _ fs

theorem repAuxF_nil (n : Nat) (pat rep : List Char) : repAuxF n pat rep [] = [] := by
  cases n <;> rfl

theorem repAuxF_no_occur (pat rep : List Char) :
    ∀ (n : Nat) (s : List Char), s.length < n → containsSub pat s = false →
      repAuxF n pat rep s = s := by
  intro n
  induction n with
  | zero => intro s h _; exact absurd h (Nat.not_lt_zero _)
  | succ m ih =>
    intro s hlen hocc
    cases s with
    | nil => rfl
    | cons c rest =>
      rw [containsSub, Bool.or_eq_false_iff] at hocc
      rw [repAuxF, if_neg (fun hc => by rw [hocc.1] at hc; exact Bool.false_ne_true hc.2)]
      rw [ih rest (by simp only [List.length_cons] at hlen; omega) hocc.2]

theorem repAuxF_strip_lead (pat rep t : List Char) (hpat : pat ≠ []) (m : Nat)
    (hm : t.length < m) (hocc : containsSub pat t = false) :
    repAuxF (m + 1) pat rep (pat ++ t) = rep ++ t := by
  cases pat with
  | nil => exact absurd rfl hpat
  | cons p ps =>
    show repAuxF (m + 1) (p :: ps) rep (p :: (ps ++ t)) = rep ++ t
    rw [repAuxF, if_pos ⟨List.cons_ne_nil p ps,
      List.isPrefixOf_iff_prefix.mpr (List.prefix_append (p :: ps) t)⟩]
    have hdrop : (p :: (ps ++ t)).drop (p :: ps).length = t := by
      simp only [List.length_cons, List.drop_succ_cons]
      exact List.drop_left ps t
    rw [hdrop, repAuxF_no_occur (p :: ps) rep m t hm hocc]

theorem repAuxF_strip_trail (pat : List Char) (hpat : pat ≠ []) :
    ∀ (s : List Char) (m : Nat), s.length + pat.length < m →
      earlyOccur pat s = false → repAuxF m pat [] (s ++ pat) = s := by
  intro s
  induction s with
  | nil =>
    intro m hm _
    cases m with
    | zero => exact absurd hm (Nat.not_lt_zero _)
    | succ k =>
      cases pat with
      | nil => exact absurd rfl hpat
      | cons p ps =>
        show repAuxF (k + 1) (p :: ps) [] (p :: ps) = []
        rw [repAuxF, if_pos ⟨List.cons_ne_nil p ps,
          List.isPrefixOf_iff_prefix.mpr (List.prefix_refl (p :: ps))⟩]
        rw [List.drop_length, repAuxF_nil]
        rfl
  | cons c s' ih =>
    intro m hm hocc
    rw [earlyOccur, Bool.or_eq_false_iff] at hocc
    cases m with
    | zero => exact absurd hm (Nat.not_lt_zero _)
    | succ k =>
      show repAuxF (k + 1) pat [] (c :: (s' ++ pat)) = c :: s'
      rw [repAuxF, if_neg (fun hc => by
        rw [show pat.isPrefixOf (c :: (s' ++ pat)) = pat.isPrefixOf ((c :: s') ++ pat)
          from rfl, hocc.1] at hc
        exact Bool.false_ne_true hc.2)]
      rw [ih k (by simp only [List.length_cons] at hm; omega) hocc.2]

theorem template_name_strip (core : String)
    (h1 : containsSub "template_".data (core.data ++ ".svg".data) = false)
    (h2 : earlyOccur ".svg".data core.data = false) :
    template_name_of ("template_" ++ core ++ ".svg") = core := by
  have hdata : ("template_" ++ core ++ ".svg").data
      = "template_".data ++ (core.data ++ ".svg".data) := by
    simp [String.data_append, List.append_assoc]
  have step1 : pyReplace ("template_" ++ core ++ ".svg") "template_" ""
      = core ++ ".svg" := by
    unfold pyReplace
    rw [hdata]
    apply String.ext
    show repAuxF (("template_".data ++ (core.data ++ ".svg".data)).length + 1)
        "template_".data [] ("template_".data ++ (core.data ++ ".svg".data))
      = (core ++ ".svg").data
    have hm : (core.data ++ ".svg".data).length
        < ("template_".data ++ (core.data ++ ".svg".data)).length := by
      simp [List.length_append]
    rw [repAuxF_strip_lead "template_".data [] (core.data ++ ".svg".data)
      (by decide) _ hm h1]
    simp [String.data_append]
  have step2 : pyReplace (core ++ ".svg") ".svg" "" = core := by
    unfold pyReplace
    apply String.ext
    show repAuxF ((core ++ ".svg").data.length + 1) ".svg".data []
        (core ++ ".svg").data = core.data
    have hd : (core ++ ".svg").data = core.data ++ ".svg".data := by
      simp [String.data_append]
    rw [hd]
    exact repAuxF_strip_trail ".svg".data (by decide) core.data _
      (by simp [List.length_append]) h2
  rw [template_name_of, step1, step2]

/-- C9 counterexample: `template_template_x.svg` matches the naming
convention, but the driver derives the name `x` (removing every
occurrence of the marker substrings) while stripping only the prefix
and the suffix would give `template_x`. -/
theorem template_name_counterexample :
    (str_starts "template_template_x.svg" "template_" &&
        str_ends "template_template_x.svg" ".svg") = true
    ∧ (generate_all_templates [] (fun _ => "") "templates"
          (some ["template_template_x.svg"]) false []).2.2
        = [TemplateRun.mk "x" "icons/x" "templates/template_template_x.svg"]
    ∧ spec_template_name "template_template_x.svg" = "template_x"
    ∧ ("x" : String) ≠ "template_x" :=
  ⟨by decide, by decide, by decide, by decide⟩

/-- C9 amended: for every matching template file the driver derives the
template name by removing every occurrence of `template_` and then
every occurrence of `.svg` from the filename — which coincides with
stripping the prefix and the suffix whenever those substrings occur
nowhere else in the name — and runs the Catalog Processor with output
directory `icons/<template_name>`. -/
theorem batch_driver_template_names (data : Catalog) (load : String → String)
    (templates_dir : String) (force : Bool) (fs : FS) (files : List String)
    (core : String)
    (h1 : containsSub "template_".data (core.data ++ ".svg".data) = false)
    (h2 : earlyOccur ".svg".data core.data = false) :
    (generate_all_templates data load templates_dir (some files) force fs).2.2
        = (files.filter (fun f => str_starts f "template_" && str_ends f ".svg")).map
            (fun f => TemplateRun.mk (template_name_of f)
              (pjoin "icons" (template_name_of f)) (pjoin templates_dir f))
      ∧ template_name_of ("template_" ++ core ++ ".svg") = core :=
  ⟨generate_all_templates_runs data load templates_dir force fs files,
    template_name_strip core h1 h2⟩

/-- Witness for C9's amended claim at a concrete listing and core name. -/
theorem batch_driver_template_names_witness :
    (generate_all_templates [] (fun _ => "") "templates"
          (some ["template_solid.svg"]) false []).2.2
        = (["template_solid.svg"].filter
              (fun f => str_starts f "template_" && str_ends f ".svg")).map
            (fun f => TemplateRun.mk (template_name_of f)
              (pjoin "icons" (template_name_of f)) (pjoin "templates" f))
      ∧ template_name_of ("template_" ++ "solid" ++ ".svg") = "solid" :=
  batch_driver_template_names [] (fun _ => "") "templates" false []
    ["template_solid.svg"] "solid" (by decide) (by decide)

end FiletypeIcons
